import Mathlib

/-!
Shallow embedding of the `trading_system` package (an EMA-crossover
intraday trading loop) and proofs about its claims.

Numeric values (prices, capital, P&L) are modelled as rationals `ℚ`;
Python ints are modelled as `ℤ`/`ℕ`.  Python's `int(x)` conversion
truncates toward zero, modelled by `truncQ`.  Dictionaries keyed by
symbol are modelled as association lists in insertion order (Python
dicts preserve insertion order), looked up by first match; keys stay
unique because insert replaces in place and remove filters.

Sources embedded:
  - src/trading_system/config.py   (fixed strategy constants)
  - src/trading_system/risk_manager.py
  - src/trading_system/strategy.py
  - src/trading_system/main.py     (execute_trade, per-symbol scan step,
    scan_and_trade, force_exit_all_positions)
External effects (order placement, last-traded-price fetch, wall clock,
market-data fetch) are passed in as function parameters; emitted side
effects (order submission, trade logging, Telegram alert) are collected
in a list of `Effect`s.
-/

/-- Python `int(x)` for a rational: truncation toward zero. -/
def truncQ (q : ℚ) : ℤ := if 0 ≤ q then ⌊q⌋ else ⌈q⌉

namespace Config

/-- config.py line 24: `STOP_LOSS_PCT = 0.01` (fixed, not env-sourced). -/
def STOP_LOSS_PCT : ℚ := 1 / 100

/-- config.py line 25: `TAKE_PROFIT_PCT = 0.02` (fixed). -/
def TAKE_PROFIT_PCT : ℚ := 2 / 100

/-- config.py line 22: `FAST_EMA_PERIOD = 9` (fixed). -/
def FAST_EMA_PERIOD : ℕ := 9

/-- config.py line 23: `SLOW_EMA_PERIOD = 21` (fixed). -/
def SLOW_EMA_PERIOD : ℕ := 21

end Config

/-- risk_manager.py: the `RiskManager` object state.  `capital`,
`risk_per_trade` and `max_positions` are read from env-sourced config
(defaults 50000, 0.02, 3); `daily_loss_limit` is hard-coded 0.05 and
`daily_pnl` starts at 0 in `__init__`. -/
structure RiskManager where
  capital : ℚ
  risk_per_trade : ℚ
  max_positions : ℕ
  daily_loss_limit : ℚ
  daily_pnl : ℚ
  deriving Repr, DecidableEq

/-- risk_manager.py lines 13-37, `calculate_position_size`.  The
`symbol` argument is used only for logging and is dropped.  The
`except` clause is unreachable (no raising operation in the body). -/
def RiskManager.calculate_position_size (rm : RiskManager)
    (entry_price stop_loss_price : ℚ) : ℤ :=
  let risk_amount := rm.capital * rm.risk_per_trade
  let price_diff := |entry_price - stop_loss_price|
  if price_diff = 0 then 0
  else
    let quantity := truncQ (risk_amount / price_diff)
    if quantity < 1 then 1 else quantity

/-- risk_manager.py lines 39-51, `can_take_position`. -/
def RiskManager.can_take_position (rm : RiskManager)
    (current_positions_count : ℕ) : Bool :=
  if current_positions_count ≥ rm.max_positions then false
  else if rm.daily_pnl ≤ -(rm.capital * rm.daily_loss_limit) then false
  else true

/-- risk_manager.py lines 53-56, `update_daily_pnl`. -/
def RiskManager.update_daily_pnl (rm : RiskManager) (pnl : ℚ) : RiskManager :=
  { rm with daily_pnl := rm.daily_pnl + pnl }

/-- strategy.py / kite_client.py: one candlestick bar.  The timestamp is
abstracted to a natural number; only `close` is read by the strategy. -/
structure Bar where
  timestamp : ℕ
  openPrice : ℚ
  high : ℚ
  low : ℚ
  close : ℚ
  volume : ℕ
  deriving Repr, DecidableEq

/-- strategy.py lines 110-115: the position record stored in the
`positions` dict.  `pd.Timestamp.now()` is abstracted to a ℕ supplied
by the caller. -/
structure Position where
  action : String
  entry_price : ℚ
  quantity : ℤ
  timestamp : ℕ
  deriving Repr, DecidableEq

/-- Dict lookup `positions[symbol]` / membership `symbol in positions`
on the insertion-ordered association list. -/
def lookupPos (ps : List (String × Position)) (sym : String) : Option Position :=
  (ps.find? (fun q => q.1 == sym)).map Prod.snd

/-- Dict assignment `positions[symbol] = p`: replace in place when the
key exists (Python dicts keep the original insertion slot), append
otherwise. -/
def insertPos (ps : List (String × Position)) (sym : String) (p : Position) :
    List (String × Position) :=
  if (ps.find? (fun q => q.1 == sym)).isSome then
    ps.map (fun q => if q.1 == sym then (sym, p) else q)
  else ps ++ [(sym, p)]

/-- Dict deletion `del positions[symbol]` guarded by membership
(strategy.py lines 119-120); with unique keys this is a filter. -/
def erasePos (ps : List (String × Position)) (sym : String) :
    List (String × Position) :=
  ps.filter (fun q => !(q.1 == sym))

/-- strategy.py lines 6-10: the `EMAStrategy` object state. -/
structure EMAStrategy where
  fast_ema_period : ℕ
  slow_ema_period : ℕ
  positions : List (String × Position)
  deriving Repr, DecidableEq

/-- One step of `pandas.Series.ewm(span, adjust=False).mean()`:
`y = x*α + prev*(1-α)`. -/
def emaFrom (α : ℚ) (prev : ℚ) : List ℚ → List ℚ
  | [] => []
  | x :: xs =>
    let y := x * α + prev * (1 - α)
    y :: emaFrom α y xs

/-- `pandas.Series(closes).ewm(span=period, adjust=False).mean()`:
`ema[0] = close[0]`, `ema[i] = close[i]*α + ema[i-1]*(1-α)` with
`α = 2/(period+1)`. -/
def emaSeq (period : ℕ) : List ℚ → List ℚ
  | [] => []
  | c :: cs => c :: emaFrom (2 / ((period : ℚ) + 1)) c cs

/-- strategy.py lines 12-23, `calculate_emas`: `None, None` when fewer
than `slow_ema_period` bars, else the two EMA series over closes. -/
def EMAStrategy.calculate_emas (s : EMAStrategy) (data : List Bar) :
    Option (List ℚ × List ℚ) :=
  if data.length < s.slow_ema_period then none
  else
    let closes := data.map Bar.close
    some (emaSeq s.fast_ema_period closes, emaSeq s.slow_ema_period closes)

/-- The `(prev, current)` pair of the last two samples of a series —
Python's `(xs[-2], xs[-1])` guarded by `len(xs) >= 2`. -/
def last2 (l : List ℚ) : Option (ℚ × ℚ) :=
  match l.reverse with
  | cur :: prev :: _ => some (prev, cur)
  | _ => none

/-- `data[-1]['close']`, reachable only on nonempty data. -/
def lastClose (data : List Bar) : ℚ :=
  ((data.map Bar.close).getLast?).getD 0

/-- main.py / strategy.py: a signal dict.  Crossover signals carry an
indicator snapshot (`fast_ema`, `slow_ema`), exit/force signals do not;
no consumer reads the snapshot. -/
structure Signal where
  action : String
  symbol : String
  price : ℚ
  fast_ema : Option ℚ
  slow_ema : Option ℚ
  reason : String
  deriving Repr, DecidableEq

/-- strategy.py lines 25-76, `generate_signal`.  The `match` on the
reversed EMA series realises the `len(...) < 2` guard (lines 34-35)
plus the `[-1]`/`[-2]` indexing; the `except` clause is unreachable.
`elif` order: the bearish test runs only when the bullish test fails. -/
def EMAStrategy.generate_signal (s : EMAStrategy) (symbol : String)
    (data : List Bar) : Option Signal :=
  match s.calculate_emas data with
  | none => none
  | some (fast_ema, slow_ema) =>
    match last2 fast_ema, last2 slow_ema with
    | some (prev_fast, current_fast), some (prev_slow, current_slow) =>
      let current_price := lastClose data
      if prev_fast ≤ prev_slow ∧ current_fast > current_slow then
        if lookupPos s.positions symbol = none then
          some { action := "BUY", symbol := symbol, price := current_price,
                 fast_ema := some current_fast, slow_ema := some current_slow,
                 reason := "EMA Bullish Crossover" }
        else none
      else if prev_fast ≥ prev_slow ∧ current_fast < current_slow then
        if (lookupPos s.positions symbol).isSome then
          some { action := "SELL", symbol := symbol, price := current_price,
                 fast_ema := some current_fast, slow_ema := some current_slow,
                 reason := "EMA Bearish Crossover" }
        else none
      else none
    | _, _ => none

/-- strategy.py lines 78-106, `should_exit_position`. -/
def EMAStrategy.should_exit_position (s : EMAStrategy) (symbol : String)
    (current_price : ℚ) : Option Signal :=
  match lookupPos s.positions symbol with
  | none => none
  | some position =>
    let entry_price := position.entry_price
    if position.action = "BUY" then
      let stop_loss := entry_price * (1 - Config.STOP_LOSS_PCT)
      let take_profit := entry_price * (1 + Config.TAKE_PROFIT_PCT)
      if current_price ≤ stop_loss then
        some { action := "SELL", symbol := symbol, price := current_price,
               fast_ema := none, slow_ema := none, reason := "Stop Loss" }
      else if current_price ≥ take_profit then
        some { action := "SELL", symbol := symbol, price := current_price,
               fast_ema := none, slow_ema := none, reason := "Take Profit" }
      else none
    else none

/-- strategy.py lines 108-115, `add_position`: plain dict assignment. -/
def EMAStrategy.add_position (s : EMAStrategy) (symbol action : String)
    (price : ℚ) (quantity : ℤ) (now : ℕ) : EMAStrategy :=
  let p : Position :=
    { action := action, entry_price := price, quantity := quantity,
      timestamp := now }
  { s with positions := insertPos s.positions symbol p }

/-- strategy.py lines 117-120, `remove_position`. -/
def EMAStrategy.remove_position (s : EMAStrategy) (symbol : String) :
    EMAStrategy :=
  { s with positions := erasePos s.positions symbol }

/-- Side effects emitted by `execute_trade`: the order submission to the
venue (`kite.place_order`), the trade log append (`logger.log_trade`)
and the Telegram alert (`telegram.send_trade_alert`). -/
inductive Effect where
  | order (symbol transaction_type : String) (quantity : ℤ)
  | trade (symbol action : String) (quantity : ℤ) (price : ℚ) (reason : String)
  | alert (symbol action : String) (quantity : ℤ) (price : ℚ) (reason : String)
  deriving Repr, DecidableEq

def Effect.isTrade : Effect → Bool
  | .trade _ _ _ _ _ => true
  | _ => false

def Effect.isAlert : Effect → Bool
  | .alert _ _ _ _ _ => true
  | _ => false

/-- kite_client.py `place_order`: symbol, transaction type and quantity
to an optional order id (`None` on rejection/failure). -/
def Venue : Type := String → String → ℤ → Option String

/-- main.py: the mutable state of `TradingSystem` touched by the core
operations (the strategy ledger and the risk manager). -/
structure SystemState where
  strategy : EMAStrategy
  risk_manager : RiskManager
  deriving Repr, DecidableEq

/-- main.py lines 116-168, `execute_trade`.  Returns the updated state
and the effects emitted, in order.  `now` abstracts the wall-clock
timestamp recorded by `add_position`.  Early returns (missing position
for a SELL, non-positive quantity) leave the state unchanged with no
effects; a `None` order id skips ledger update, trade log and alert. -/
def execute_trade (st : SystemState) (venue : Venue) (now : ℕ)
    (signal : Signal) : SystemState × List Effect :=
  let symbol := signal.symbol
  let action := signal.action
  let price := signal.price
  let qOpt : Option ℤ :=
    if action = "BUY" then
      let stop_loss_price := price * (1 - Config.STOP_LOSS_PCT)
      some (st.risk_manager.calculate_position_size price stop_loss_price)
    else
      match lookupPos st.strategy.positions symbol with
      | some p => some p.quantity
      | none => none
  match qOpt with
  | none => (st, [])
  | some quantity =>
    if quantity ≤ 0 then (st, [])
    else
      match venue symbol action quantity with
      | none => (st, [Effect.order symbol action quantity])
      | some _ =>
        let st2 :=
          if action = "BUY" then
            { st with strategy :=
                st.strategy.add_position symbol action price quantity now }
          else
            { st with strategy := st.strategy.remove_position symbol }
        (st2, [Effect.order symbol action quantity,
               Effect.trade symbol action quantity price signal.reason,
               Effect.alert symbol action quantity price signal.reason])

/-- main.py lines 85-114: the body of the per-symbol loop of
`scan_and_trade`.  Empty data skips the symbol; the threshold exit
check runs first and, when it fires, its trade is executed and the
`continue` skips crossover evaluation; otherwise a generated signal is
executed only if `can_take_position` admits it. -/
def process_symbol (st : SystemState) (venue : Venue) (now : ℕ)
    (symbol : String) (data : List Bar) : SystemState × List Effect :=
  if data = [] then (st, [])
  else
    let current_price := lastClose data
    match st.strategy.should_exit_position symbol current_price with
    | some exit_signal => execute_trade st venue now exit_signal
    | none =>
      match st.strategy.generate_signal symbol data with
      | some signal =>
        if st.risk_manager.can_take_position st.strategy.positions.length then
          execute_trade st venue now signal
        else (st, [])
      | none => (st, [])

/-- main.py lines 63-114, `scan_and_trade`.  `marketOpen` abstracts
`is_market_open()` (wall clock / mock flag); `dataFor` abstracts
`kite.get_historical_data`.  When the market is closed the scan is a
no-op; otherwise the watchlist is processed in declaration order. -/
def scan_and_trade (st : SystemState) (venue : Venue) (now : ℕ)
    (marketOpen : Bool) (watchlist : List String)
    (dataFor : String → List Bar) : SystemState × List Effect :=
  if !marketOpen then (st, [])
  else
    watchlist.foldl
      (fun acc symbol =>
        let r := process_symbol acc.1 venue now symbol (dataFor symbol)
        (r.1, acc.2 ++ r.2))
      (st, [])

/-- main.py lines 170-186, `force_exit_all_positions`.  Iterates a
snapshot (`list(self.strategy.positions.items())`) of the ledger taken
before the loop; `ltp` abstracts `kite.get_ltp` (`None` covers both a
missing price and a fetch failure, which `get_ltp` turns into `None`);
a falsy price skips the symbol and the loop continues. -/
def force_exit_all_positions (st : SystemState) (venue : Venue)
    (ltp : String → Option ℚ) (now : ℕ) : SystemState × List Effect :=
  st.strategy.positions.foldl
    (fun acc entry =>
      match ltp entry.1 with
      | some current_price =>
        let signal : Signal :=
          { action := "SELL", symbol := entry.1, price := current_price,
            fast_ema := none, slow_ema := none,
            reason := "Force Exit - Market Close" }
        let r := execute_trade acc.1 venue now signal
        (r.1, acc.2 ++ r.2)
      | none => acc)
    (st, [])

/-- The state built by `TradingSystem.__init__`: an empty ledger with
the fixed EMA periods, and a fresh `RiskManager` whose `daily_pnl` is 0
and whose `daily_loss_limit` is the hard-coded 0.05; `capital`,
`risk_per_trade` and `max_positions` come from env-sourced config. -/
def initialState (capital risk_per_trade : ℚ) (max_positions : ℕ) :
    SystemState :=
  { strategy :=
      { fast_ema_period := Config.FAST_EMA_PERIOD,
        slow_ema_period := Config.SLOW_EMA_PERIOD,
        positions := [] },
    risk_manager :=
      { capital := capital, risk_per_trade := risk_per_trade,
        max_positions := max_positions, daily_loss_limit := 5 / 100,
        daily_pnl := 0 } }

/-- States reachable from a freshly initialised `TradingSystem` by any
sequence of the three core operations, under arbitrary environments
(venue responses, market data, prices, clock). -/
inductive Reachable : SystemState → Prop where
  | init (capital risk_per_trade : ℚ) (max_positions : ℕ) :
      Reachable (initialState capital risk_per_trade max_positions)
  | scan (st : SystemState) (venue : Venue) (now : ℕ) (marketOpen : Bool)
      (watchlist : List String) (dataFor : String → List Bar) :
      Reachable st →
      Reachable (scan_and_trade st venue now marketOpen watchlist dataFor).1
  | exec (st : SystemState) (venue : Venue) (now : ℕ) (signal : Signal) :
      Reachable st → Reachable (execute_trade st venue now signal).1
  | force (st : SystemState) (venue : Venue) (ltp : String → Option ℚ)
      (now : ℕ) :
      Reachable st → Reachable (force_exit_all_positions st venue ltp now).1

/-- `RiskManager.__init__` under the default env config
(`CAPITAL=50000`, `RISK_PER_TRADE=0.02`, `MAX_POSITIONS=3`). -/
def rmDefault : RiskManager :=
  { capital := 50000, risk_per_trade := 2 / 100, max_positions := 3,
    daily_loss_limit := 5 / 100, daily_pnl := 0 }

/-- A venue that rejects every order (`place_order` returns `None`). -/
def venueNone : Venue := fun _ _ _ => none

/-- The mock venue: every order confirmed with a synthetic id
(kite_client.py lines 132-135). -/
def venueMock : Venue :=
  fun symbol transaction_type _ =>
    some ("MOCK_ORDER_" ++ symbol ++ "_" ++ transaction_type)

/-- A flat candle at a given close price. -/
def mkBar (c : ℚ) : Bar :=
  { timestamp := 0, openPrice := c, high := c, low := c, close := c,
    volume := 1000 }

/-- A long position opened at 100 for 10 shares. -/
def posBuy100 : Position :=
  { action := "BUY", entry_price := 100, quantity := 10, timestamp := 0 }

/-- A long position opened at 50 for 7 shares. -/
def posBuy50 : Position :=
  { action := "BUY", entry_price := 50, quantity := 7, timestamp := 0 }

/-- A strategy holding one open position (RELIANCE @ 100). -/
def stratOne : EMAStrategy :=
  { fast_ema_period := Config.FAST_EMA_PERIOD,
    slow_ema_period := Config.SLOW_EMA_PERIOD,
    positions := [("RELIANCE", posBuy100)] }

/-- System state with one open position and the default risk manager. -/
def stOne : SystemState := { strategy := stratOne, risk_manager := rmDefault }

/-- A system state holding exactly two open positions, in ledger
insertion order `a` then `b`. -/
def twoPosState (fp sp : ℕ) (rm : RiskManager) (a : String) (pa : Position)
    (b : String) (pb : Position) : SystemState :=
  { strategy :=
      { fast_ema_period := fp, slow_ema_period := sp,
        positions := [(a, pa), (b, pb)] },
    risk_manager := rm }

/-- A last-traded-price source that fails for RELIANCE and quotes 48
for TCS. -/
def ltpTwo : String → Option ℚ := fun s => if s == "TCS" then some 48 else none

/-- 21 bars: twenty closes at 100, then one at 200 — a bullish EMA
crossover on the last sample. -/
def dataCross : List Bar := List.replicate 20 (mkBar 100) ++ [mkBar 200]

/-- A SELL signal for a symbol used in witnesses. -/
def sigSellReliance : Signal :=
  { action := "SELL", symbol := "RELIANCE", price := 100, fast_ema := none,
    slow_ema := none, reason := "EMA Bearish Crossover" }

lemma find?_map_replace (ps : List (String × Position)) (sym : String)
    (p : Position) (h : (ps.find? (fun q => q.1 == sym)).isSome) :
    (ps.map (fun q => if q.1 == sym then (sym, p) else q)).find?
      (fun q => q.1 == sym) = some (sym, p) := by
  induction ps with
  | nil => simp at h
  | cons q rest ih =>
    cases hq : (q.1 == sym) with
    | true =>
      have he : (if (q.1 == sym) then ((sym, p) : String × Position) else q)
          = (sym, p) := by simp [hq]
      rw [List.map_cons, he]
      exact List.find?_cons_of_pos _ (by simp)
    | false =>
      have he : (if (q.1 == sym) then ((sym, p) : String × Position) else q)
          = q := by simp [hq]
      have hnq : ¬ ((fun r : String × Position => r.1 == sym) q = true) := by
        simp [hq]
      have h2 : (rest.find? (fun r => r.1 == sym)).isSome := by
        rw [@List.find?_cons_of_neg _ (fun r : String × Position => r.1 == sym)
          q rest hnq] at h
        exact h
      rw [List.map_cons, he,
        @List.find?_cons_of_neg _ (fun r : String × Position => r.1 == sym) q
          _ hnq]
      exact ih h2

lemma find?_insertPos (ps : List (String × Position)) (sym : String)
    (p : Position) :
    (insertPos ps sym p).find? (fun q => q.1 == sym) = some (sym, p) := by
  unfold insertPos
  by_cases h : (ps.find? (fun q => q.1 == sym)).isSome
  · rw [if_pos h]
    exact find?_map_replace ps sym p h
  · rw [if_neg h]
    have h0 : ps.find? (fun q => q.1 == sym) = none :=
      Option.not_isSome_iff_eq_none.mp h
    rw [List.find?_append, h0]
    simp [List.find?]

lemma lookupPos_insertPos (ps : List (String × Position)) (sym : String)
    (p : Position) : lookupPos (insertPos ps sym p) sym = some p := by
  rw [lookupPos, find?_insertPos]
  rfl

/-- C1 counterexample: with the default configuration (max_positions =
3 > 0) and an accumulated daily P&L of -2500 = -(50000·0.05), the open
count 0 is strictly below the limit, yet admission is refused — against
the claim that admission is granted whenever the count is strictly
below the limit "independent of daily P&L". -/
theorem C1_counterexample :
    0 < ({ rmDefault with daily_pnl := -2500 } : RiskManager).max_positions ∧
    RiskManager.can_take_position { rmDefault with daily_pnl := -2500 } 0
      = false := by
  constructor
  · decide
  · norm_num [RiskManager.can_take_position, rmDefault]

/-- C1 (amended): admission holds exactly when the open count is
strictly below `max_positions` AND the accumulated daily P&L is
strictly above -(capital · daily_loss_limit); refusal at the count
limit and refusal at the loss limit are both unconditional, but
admission below the count limit is NOT independent of daily P&L. -/
theorem C1_amended (rm : RiskManager) (count : ℕ) :
    rm.can_take_position count = true ↔
      (count < rm.max_positions ∧
        -(rm.capital * rm.daily_loss_limit) < rm.daily_pnl) := by
  constructor
  · intro h
    by_cases h1 : count ≥ rm.max_positions
    · simp [RiskManager.can_take_position, h1] at h
    · by_cases h2 : rm.daily_pnl ≤ -(rm.capital * rm.daily_loss_limit)
      · simp [RiskManager.can_take_position, h1, h2] at h
      · exact ⟨by omega, by linarith [not_le.mp h2]⟩
  · rintro ⟨hc, hp⟩
    have h1 : ¬ count ≥ rm.max_positions := by omega
    have h2 : ¬ rm.daily_pnl ≤ -(rm.capital * rm.daily_loss_limit) :=
      not_le.mpr hp
    simp [RiskManager.can_take_position, h1, h2]

/-- C2 counterexample: with an open RELIANCE position entered at 100,
`add_position("RELIANCE", "BUY", 200, 5)` silently replaces it — after
the call the stored position is no longer the previous one, against the
claim that the call is rejected and the stored position unchanged. -/
theorem C2_counterexample :
    lookupPos stOne.strategy.positions "RELIANCE" = some posBuy100 ∧
    lookupPos ((stOne.strategy.add_position "RELIANCE" "BUY" 200 5 1).positions)
      "RELIANCE" ≠ some posBuy100 := by
  constructor
  · rfl
  · decide

/-- C2 (amended): `add_position` never rejects; after the call the
ledger entry for the symbol is exactly the newly supplied record, so an
existing open position for that symbol is silently overwritten (last
write wins). -/
theorem C2_amended (s : EMAStrategy) (sym action : String) (price : ℚ)
    (quantity : ℤ) (now : ℕ) :
    lookupPos ((s.add_position sym action price quantity now).positions) sym =
      some { action := action, entry_price := price, quantity := quantity,
             timestamp := now } := by
  unfold EMAStrategy.add_position
  exact lookupPos_insertPos _ _ _

/-- C3: position sizing returns 0 when the entry-to-stop distance is
zero; for a positive distance it returns the floor of
risk_amount/distance clamped up to 1, the clamp firing exactly when the
(positive) quotient is below 1; and at the documented instance
(capital 50000, risk 0.02, entry 100, stop 99) it returns 1000. -/
theorem C3_theorem (rm : RiskManager)
    (h : 0 < rm.capital * rm.risk_per_trade) :
    (∀ entry stop : ℚ, |entry - stop| = 0 →
        rm.calculate_position_size entry stop = 0) ∧
    (∀ entry stop : ℚ, 0 < |entry - stop| →
        rm.calculate_position_size entry stop =
          max 1 ⌊rm.capital * rm.risk_per_trade / |entry - stop|⌋ ∧
        0 < rm.capital * rm.risk_per_trade / |entry - stop| ∧
        (⌊rm.capital * rm.risk_per_trade / |entry - stop|⌋ < 1 ↔
          rm.capital * rm.risk_per_trade / |entry - stop| < 1)) ∧
    RiskManager.calculate_position_size rmDefault 100 99 = 1000 := by
  refine ⟨?_, ?_, ?_⟩
  · intro entry stop hd
    unfold RiskManager.calculate_position_size
    rw [if_pos hd]
  · intro entry stop hd
    have hq : 0 < rm.capital * rm.risk_per_trade / |entry - stop| :=
      div_pos h hd
    have hflt : truncQ (rm.capital * rm.risk_per_trade / |entry - stop|) =
        ⌊rm.capital * rm.risk_per_trade / |entry - stop|⌋ := by
      unfold truncQ
      rw [if_pos (le_of_lt hq)]
    refine ⟨?_, hq, ?_⟩
    · unfold RiskManager.calculate_position_size
      rw [if_neg (ne_of_gt hd), hflt]
      by_cases hlt : ⌊rm.capital * rm.risk_per_trade / |entry - stop|⌋ < 1
      · rw [if_pos hlt, max_eq_left (le_of_lt hlt)]
      · rw [if_neg hlt, max_eq_right (not_lt.mp hlt)]
    · constructor
      · intro hlt
        have := Int.floor_lt.mp hlt
        simpa using this
      · intro hlt
        apply Int.floor_lt.mpr
        simpa using hlt
  · norm_num [RiskManager.calculate_position_size, truncQ, rmDefault]

/-- C3 witness: the concrete documented instance. -/
theorem C3_witness :
    0 < rmDefault.capital * rmDefault.risk_per_trade ∧
    RiskManager.calculate_position_size rmDefault 100 99 = 1000 :=
  ⟨by norm_num [rmDefault], (C3_theorem rmDefault (by norm_num [rmDefault])).2.2⟩

/-- C8: with fewer bars than the slow EMA period, `generate_signal`
returns no signal (the defined "insufficient data" outcome, returned as
`None` rather than raised as an error). -/
theorem C8_theorem (s : EMAStrategy) (symbol : String) (data : List Bar)
    (h : data.length < s.slow_ema_period) :
    s.generate_signal symbol data = none := by
  unfold EMAStrategy.generate_signal EMAStrategy.calculate_emas
  rw [if_pos h]

/-- C8 witness: the freshly initialised strategy (slow period 21) on an
empty bar list. -/
theorem C8_witness :
    ([] : List Bar).length <
      (initialState 50000 (2 / 100) 3).strategy.slow_ema_period ∧
    EMAStrategy.generate_signal (initialState 50000 (2 / 100) 3).strategy
      "RELIANCE" [] = none :=
  ⟨by decide, C8_theorem _ "RELIANCE" [] (by decide)⟩

/-- C10: a SELL signal for a symbol with no ledger entry makes
`execute_trade` return before order placement: state unchanged and no
effects at all (no order, no trade record, no alert). -/
theorem C10_theorem (st : SystemState) (venue : Venue) (now : ℕ)
    (signal : Signal) (h1 : signal.action = "SELL")
    (h2 : lookupPos st.strategy.positions signal.symbol = none) :
    execute_trade st venue now signal = (st, []) := by
  have hb : ¬ signal.action = "BUY" := by rw [h1]; decide
  unfold execute_trade
  dsimp only
  rw [if_neg hb, h2]

/-- C10 witness: a bearish-crossover SELL for RELIANCE against an empty
ledger, with a venue that would confirm. -/
theorem C10_witness :
    sigSellReliance.action = "SELL" ∧
    lookupPos (initialState 50000 (2 / 100) 3).strategy.positions
      sigSellReliance.symbol = none ∧
    execute_trade (initialState 50000 (2 / 100) 3) venueMock 0 sigSellReliance =
      (initialState 50000 (2 / 100) 3, []) :=
  ⟨rfl, rfl, C10_theorem _ venueMock 0 sigSellReliance rfl rfl⟩

/-- C5: when the venue confirms no order (`place_order` returns `None`
on every submission), `execute_trade` leaves the system state — in
particular the position ledger — unchanged, and emits neither a trade
record nor a notification. -/
theorem C5_theorem (st : SystemState) (venue : Venue) (now : ℕ)
    (signal : Signal) (hv : ∀ sym ty q, venue sym ty q = none) :
    (execute_trade st venue now signal).1 = st ∧
    (execute_trade st venue now signal).2.all
      (fun e => !e.isTrade && !e.isAlert) = true := by
  unfold execute_trade
  dsimp only
  by_cases hb : signal.action = "BUY"
  · rw [if_pos hb]
    dsimp only
    by_cases hq : st.risk_manager.calculate_position_size signal.price
        (signal.price * (1 - Config.STOP_LOSS_PCT)) ≤ 0
    · rw [if_pos hq]
      exact ⟨rfl, rfl⟩
    · rw [if_neg hq, hv]
      exact ⟨rfl, rfl⟩
  · rw [if_neg hb]
    cases hl : lookupPos st.strategy.positions signal.symbol with
    | none => exact ⟨rfl, rfl⟩
    | some p =>
      dsimp only
      by_cases hq : p.quantity ≤ 0
      · rw [if_pos hq]
        exact ⟨rfl, rfl⟩
      · rw [if_neg hq, hv]
        exact ⟨rfl, rfl⟩

/-- C5 witness: a SELL against the open RELIANCE position with a venue
that rejects everything. -/
theorem C5_witness :
    (execute_trade stOne venueNone 0 sigSellReliance).1 = stOne ∧
    (execute_trade stOne venueNone 0 sigSellReliance).2.all
      (fun e => !e.isTrade && !e.isAlert) = true :=
  C5_theorem stOne venueNone 0 sigSellReliance (fun _ _ _ => rfl)

/-- C4: with an open BUY position, the threshold exit check compares the
latest close against stop-loss `entry·(1-pct)` and take-profit
`entry·(1+pct)`; a stop-loss breach yields an immediate "Stop Loss"
EXIT — taking priority over take-profit — and the per-symbol cycle step
executes exactly that exit, short-circuiting crossover evaluation; a
take-profit breach without a stop-loss breach likewise yields "Take
Profit"; and at entry 100 a "Stop Loss" EXIT fires iff price ≤ 99. -/
theorem C4_theorem (st : SystemState) (venue : Venue) (now : ℕ)
    (sym : String) (data : List Bar) (pos : Position)
    (hd : ¬ data = [])
    (hp : lookupPos st.strategy.positions sym = some pos)
    (hb : pos.action = "BUY") :
    (lastClose data ≤ pos.entry_price * (1 - Config.STOP_LOSS_PCT) →
      st.strategy.should_exit_position sym (lastClose data) =
        some ⟨"SELL", sym, lastClose data, none, none, "Stop Loss"⟩ ∧
      process_symbol st venue now sym data =
        execute_trade st venue now
          ⟨"SELL", sym, lastClose data, none, none, "Stop Loss"⟩) ∧
    (¬ lastClose data ≤ pos.entry_price * (1 - Config.STOP_LOSS_PCT) →
      lastClose data ≥ pos.entry_price * (1 + Config.TAKE_PROFIT_PCT) →
      st.strategy.should_exit_position sym (lastClose data) =
        some ⟨"SELL", sym, lastClose data, none, none, "Take Profit"⟩ ∧
      process_symbol st venue now sym data =
        execute_trade st venue now
          ⟨"SELL", sym, lastClose data, none, none, "Take Profit"⟩) ∧
    (pos.entry_price = 100 →
      ((∃ sig, st.strategy.should_exit_position sym (lastClose data) =
          some sig ∧ sig.reason = "Stop Loss") ↔ lastClose data ≤ 99)) := by
  have hexit : ∀ price : ℚ, st.strategy.should_exit_position sym price =
      (if price ≤ pos.entry_price * (1 - Config.STOP_LOSS_PCT) then
        some ⟨"SELL", sym, price, none, none, "Stop Loss"⟩
      else if price ≥ pos.entry_price * (1 + Config.TAKE_PROFIT_PCT) then
        some ⟨"SELL", sym, price, none, none, "Take Profit"⟩
      else none) := by
    intro price
    unfold EMAStrategy.should_exit_position
    rw [hp]
    dsimp only
    rw [if_pos hb]
  refine ⟨?_, ?_, ?_⟩
  · intro hsl
    have h1 : st.strategy.should_exit_position sym (lastClose data) =
        some ⟨"SELL", sym, lastClose data, none, none, "Stop Loss"⟩ := by
      rw [hexit, if_pos hsl]
    refine ⟨h1, ?_⟩
    unfold process_symbol
    rw [if_neg hd]
    dsimp only
    rw [h1]
  · intro hnsl htp
    have h1 : st.strategy.should_exit_position sym (lastClose data) =
        some ⟨"SELL", sym, lastClose data, none, none, "Take Profit"⟩ := by
      rw [hexit, if_neg hnsl, if_pos htp]
    refine ⟨h1, ?_⟩
    unfold process_symbol
    rw [if_neg hd]
    dsimp only
    rw [h1]
  · intro h100
    have h99 : pos.entry_price * (1 - Config.STOP_LOSS_PCT) = 99 := by
      rw [h100]
      norm_num [Config.STOP_LOSS_PCT]
    constructor
    · rintro ⟨sig, hsig, hreason⟩
      by_contra hgt
      rw [hexit, h99, if_neg hgt] at hsig
      by_cases htp : lastClose data ≥
          pos.entry_price * (1 + Config.TAKE_PROFIT_PCT)
      · rw [if_pos htp] at hsig
        have : sig.reason = "Take Profit" := by
          rw [← Option.some_inj.mp hsig]
        rw [hreason] at this
        exact absurd this (by decide)
      · rw [if_neg htp] at hsig
        exact Option.noConfusion hsig
    · intro hle
      refine ⟨⟨"SELL", sym, lastClose data, none, none, "Stop Loss"⟩, ?_, rfl⟩
      rw [hexit, h99, if_pos hle]

/-- C4 witness: RELIANCE opened at 100, latest close 99 — the stop loss
fires and the cycle step executes it. -/
theorem C4_witness :
    stOne.strategy.should_exit_position "RELIANCE" (lastClose [mkBar 99]) =
      some ⟨"SELL", "RELIANCE", lastClose [mkBar 99], none, none,
        "Stop Loss"⟩ ∧
    process_symbol stOne venueMock 0 "RELIANCE" [mkBar 99] =
      execute_trade stOne venueMock 0
        ⟨"SELL", "RELIANCE", lastClose [mkBar 99], none, none,
          "Stop Loss"⟩ :=
  (C4_theorem stOne venueMock 0 "RELIANCE" [mkBar 99] posBuy100
    (by simp) rfl rfl).1
    (by norm_num [lastClose, mkBar, posBuy100, Config.STOP_LOSS_PCT])

/-- C6: with enough bars, signal generation is gated by position state:
a bullish crossover (prev_fast ≤ prev_slow and current_fast >
current_slow) yields a BUY only when no position is open for the
symbol and nothing otherwise; a bearish crossover (prev_fast ≥
prev_slow and current_fast < current_slow) yields a SELL with reason
"EMA Bearish Crossover" only when a position is open and nothing
otherwise. -/
theorem C6_theorem (s : EMAStrategy) (sym : String) (data : List Bar)
    (pfast cfast pslow cslow : ℚ)
    (hlen : s.slow_ema_period ≤ data.length)
    (hf : last2 (emaSeq s.fast_ema_period (data.map Bar.close)) =
      some (pfast, cfast))
    (hs : last2 (emaSeq s.slow_ema_period (data.map Bar.close)) =
      some (pslow, cslow)) :
    (pfast ≤ pslow ∧ cfast > cslow →
      (lookupPos s.positions sym = none →
        s.generate_signal sym data =
          some ⟨"BUY", sym, lastClose data, some cfast, some cslow,
            "EMA Bullish Crossover"⟩) ∧
      (∀ p, lookupPos s.positions sym = some p →
        s.generate_signal sym data = none)) ∧
    (pfast ≥ pslow ∧ cfast < cslow →
      (∀ p, lookupPos s.positions sym = some p →
        s.generate_signal sym data =
          some ⟨"SELL", sym, lastClose data, some cfast, some cslow,
            "EMA Bearish Crossover"⟩) ∧
      (lookupPos s.positions sym = none →
        s.generate_signal sym data = none)) := by
  have hcalc : s.calculate_emas data =
      some (emaSeq s.fast_ema_period (data.map Bar.close),
        emaSeq s.slow_ema_period (data.map Bar.close)) := by
    unfold EMAStrategy.calculate_emas
    rw [if_neg (Nat.not_lt.mpr hlen)]
  have hgen : s.generate_signal sym data =
      (if pfast ≤ pslow ∧ cfast > cslow then
        if lookupPos s.positions sym = none then
          some ⟨"BUY", sym, lastClose data, some cfast, some cslow,
            "EMA Bullish Crossover"⟩
        else none
      else if pfast ≥ pslow ∧ cfast < cslow then
        if (lookupPos s.positions sym).isSome then
          some ⟨"SELL", sym, lastClose data, some cfast, some cslow,
            "EMA Bearish Crossover"⟩
        else none
      else none) := by
    unfold EMAStrategy.generate_signal
    rw [hcalc]
    dsimp only
    rw [hf, hs]
  constructor
  · intro hbull
    constructor
    · intro hnone
      rw [hgen, if_pos hbull, if_pos hnone]
    · intro p hp
      rw [hgen, if_pos hbull, if_neg (by simp [hp])]
  · intro hbear
    have hnb : ¬ (pfast ≤ pslow ∧ cfast > cslow) := by
      rintro ⟨_, hgt⟩
      exact lt_asymm hgt hbear.2
    constructor
    · intro p hp
      rw [hgen, if_neg hnb, if_pos hbear, if_pos (by rw [hp]; rfl)]
    · intro hnone
      rw [hgen, if_neg hnb, if_pos hbear, if_neg (by simp [hnone])]

/-- C6 witness: 20 closes at 100 then one at 200 (a bullish crossover:
fast EMA 120 crosses above slow EMA 1200/11) on an empty ledger yields
the BUY signal. -/
theorem C6_witness :
    EMAStrategy.generate_signal (initialState 50000 (2 / 100) 3).strategy
      "TCS" dataCross =
      some ⟨"BUY", "TCS", lastClose dataCross, some 120, some (1200 / 11),
        "EMA Bullish Crossover"⟩ :=
  ((C6_theorem (initialState 50000 (2 / 100) 3).strategy "TCS" dataCross
    100 120 100 (1200 / 11)
    (by norm_num [initialState, Config.SLOW_EMA_PERIOD, dataCross, mkBar])
    (by norm_num [initialState, Config.FAST_EMA_PERIOD, dataCross, mkBar,
      List.replicate, emaSeq, emaFrom, last2])
    (by norm_num [initialState, Config.SLOW_EMA_PERIOD, dataCross, mkBar,
      List.replicate, emaSeq, emaFrom, last2])).1
    (by norm_num)).1 rfl

/-- C7: with two open positions iterated in ledger order `a` then `b`,
a last-traded-price failure for `a` does not stop the loop: `b` is
still exited through the normal `execute_trade` path with reason
"Force Exit - Market Close" (its ledger entry removed, its trade
recorded), while `a`'s entry remains. -/
theorem C7_theorem (fp sp : ℕ) (rm : RiskManager) (a b : String)
    (pa pb : Position) (venue : Venue) (ltp : String → Option ℚ)
    (now : ℕ) (price_b : ℚ) (oid : String)
    (hab : (a == b) = false)
    (hla : ltp a = none) (hlb : ltp b = some price_b)
    (hq : 0 < pb.quantity)
    (hv : venue b "SELL" pb.quantity = some oid) :
    lookupPos (force_exit_all_positions (twoPosState fp sp rm a pa b pb)
      venue ltp now).1.strategy.positions b = none ∧
    lookupPos (force_exit_all_positions (twoPosState fp sp rm a pa b pb)
      venue ltp now).1.strategy.positions a = some pa ∧
    Effect.trade b "SELL" pb.quantity price_b "Force Exit - Market Close" ∈
      (force_exit_all_positions (twoPosState fp sp rm a pa b pb)
        venue ltp now).2 := by
  have hlook : lookupPos [(a, pa), (b, pb)] b = some pb := by
    unfold lookupPos
    rw [@List.find?_cons_of_neg _ (fun r : String × Position => r.1 == b)
      (a, pa) _ (by simp [hab])]
    rw [List.find?_cons_of_pos _ (by simp)]
    rfl
  have hstep : force_exit_all_positions (twoPosState fp sp rm a pa b pb)
      venue ltp now =
      (SystemState.mk (EMAStrategy.mk fp sp [(a, pa)]) rm,
       [Effect.order b "SELL" pb.quantity,
        Effect.trade b "SELL" pb.quantity price_b "Force Exit - Market Close",
        Effect.alert b "SELL" pb.quantity price_b
          "Force Exit - Market Close"]) := by
    unfold force_exit_all_positions twoPosState
    dsimp only [List.foldl]
    rw [hla, hlb]
    dsimp only
    unfold execute_trade
    dsimp only
    rw [if_neg (show ¬ ("SELL" = "BUY") by decide), hlook]
    dsimp only
    rw [if_neg (not_le.mpr hq), hv]
    dsimp only
    unfold EMAStrategy.remove_position erasePos
    simp [List.filter, hab]
  rw [hstep]
  refine ⟨?_, ?_, ?_⟩
  · unfold lookupPos
    rw [@List.find?_cons_of_neg _ (fun r : String × Position => r.1 == b)
      (a, pa) _ (by simp [hab])]
    rfl
  · unfold lookupPos
    rw [List.find?_cons_of_pos _ (by simp)]
    rfl
  · simp

/-- C7 witness: RELIANCE and TCS open, the RELIANCE price fetch fails,
TCS is still force-exited on the mock venue. -/
theorem C7_witness :
    lookupPos (force_exit_all_positions
      (twoPosState 9 21 rmDefault "RELIANCE" posBuy100 "TCS" posBuy50)
      venueMock ltpTwo 0).1.strategy.positions "TCS" = none ∧
    lookupPos (force_exit_all_positions
      (twoPosState 9 21 rmDefault "RELIANCE" posBuy100 "TCS" posBuy50)
      venueMock ltpTwo 0).1.strategy.positions "RELIANCE" = some posBuy100 ∧
    Effect.trade "TCS" "SELL" posBuy50.quantity 48
      "Force Exit - Market Close" ∈
      (force_exit_all_positions
        (twoPosState 9 21 rmDefault "RELIANCE" posBuy100 "TCS" posBuy50)
        venueMock ltpTwo 0).2 :=
  C7_theorem 9 21 rmDefault "RELIANCE" "TCS" posBuy100 posBuy50 venueMock
    ltpTwo 0 48 "MOCK_ORDER_TCS_SELL" (by decide) (by decide) (by decide)
    (by decide) rfl

lemma execute_trade_risk (st : SystemState) (venue : Venue) (now : ℕ)
    (signal : Signal) :
    (execute_trade st venue now signal).1.risk_manager = st.risk_manager := by
  unfold execute_trade
  dsimp only
  by_cases hb : signal.action = "BUY"
  · rw [if_pos hb]
    dsimp only
    by_cases hq : st.risk_manager.calculate_position_size signal.price
        (signal.price * (1 - Config.STOP_LOSS_PCT)) ≤ 0
    · rw [if_pos hq]
    · rw [if_neg hq]
      cases hv : venue signal.symbol signal.action
          (st.risk_manager.calculate_position_size signal.price
            (signal.price * (1 - Config.STOP_LOSS_PCT))) with
      | none => rfl
      | some o =>
        dsimp only
        rw [if_pos hb]
  · rw [if_neg hb]
    cases hl : lookupPos st.strategy.positions signal.symbol with
    | none => rfl
    | some p =>
      dsimp only
      by_cases hq : p.quantity ≤ 0
      · rw [if_pos hq]
      · rw [if_neg hq]
        cases hv : venue signal.symbol signal.action p.quantity with
        | none => rfl
        | some o =>
          dsimp only
          rw [if_neg hb]

lemma process_symbol_risk (st : SystemState) (venue : Venue) (now : ℕ)
    (symbol : String) (data : List Bar) :
    (process_symbol st venue now symbol data).1.risk_manager =
      st.risk_manager := by
  unfold process_symbol
  by_cases hd : data = []
  · rw [if_pos hd]
  · rw [if_neg hd]
    dsimp only
    cases hx : st.strategy.should_exit_position symbol (lastClose data) with
    | some sig => exact execute_trade_risk st venue now sig
    | none =>
      cases hg : st.strategy.generate_signal symbol data with
      | some sig =>
        dsimp only
        by_cases hc :
            st.risk_manager.can_take_position st.strategy.positions.length
        · rw [if_pos hc]
          exact execute_trade_risk st venue now sig
        · rw [if_neg hc]
      | none => rfl

lemma scan_foldl_risk (venue : Venue) (now : ℕ)
    (dataFor : String → List Bar) (watchlist : List String) :
    ∀ acc : SystemState × List Effect,
      (watchlist.foldl
        (fun acc symbol =>
          let r := process_symbol acc.1 venue now symbol (dataFor symbol)
          (r.1, acc.2 ++ r.2)) acc).1.risk_manager =
        acc.1.risk_manager := by
  induction watchlist with
  | nil => intro acc; rfl
  | cons s rest ih =>
    intro acc
    rw [List.foldl_cons]
    exact (ih _).trans (process_symbol_risk acc.1 venue now s (dataFor s))

lemma scan_and_trade_risk (st : SystemState) (venue : Venue) (now : ℕ)
    (marketOpen : Bool) (watchlist : List String)
    (dataFor : String → List Bar) :
    (scan_and_trade st venue now marketOpen watchlist dataFor).1.risk_manager
      = st.risk_manager := by
  unfold scan_and_trade
  cases marketOpen with
  | false => rfl
  | true =>
    dsimp only
    exact scan_foldl_risk venue now dataFor watchlist (st, [])

lemma force_foldl_risk (venue : Venue) (ltp : String → Option ℚ) (now : ℕ)
    (entries : List (String × Position)) :
    ∀ acc : SystemState × List Effect,
      (entries.foldl
        (fun acc entry =>
          match ltp entry.1 with
          | some current_price =>
            let signal : Signal :=
              { action := "SELL", symbol := entry.1, price := current_price,
                fast_ema := none, slow_ema := none,
                reason := "Force Exit - Market Close" }
            let r := execute_trade acc.1 venue now signal
            (r.1, acc.2 ++ r.2)
          | none => acc) acc).1.risk_manager = acc.1.risk_manager := by
  induction entries with
  | nil => intro acc; rfl
  | cons e rest ih =>
    intro acc
    rw [List.foldl_cons]
    refine (ih _).trans ?_
    cases hl : ltp e.1 with
    | none => rfl
    | some price => exact execute_trade_risk acc.1 venue now _

lemma force_exit_risk (st : SystemState) (venue : Venue)
    (ltp : String → Option ℚ) (now : ℕ) :
    (force_exit_all_positions st venue ltp now).1.risk_manager =
      st.risk_manager := by
  unfold force_exit_all_positions
  exact force_foldl_risk venue ltp now st.strategy.positions (st, [])

/-- C9: no core operation updates the risk manager, so every reachable
state still has `daily_pnl = 0`; hence (for a positive capital·loss
limit product) the daily-loss branch of `can_take_position` never
refuses, and admission is decided by the open-position count alone. -/
theorem C9_theorem (st : SystemState) (h : Reachable st) :
    st.risk_manager.daily_pnl = 0 ∧
    (0 < st.risk_manager.capital * st.risk_manager.daily_loss_limit →
      ∀ count : ℕ, st.risk_manager.can_take_position count =
        decide (count < st.risk_manager.max_positions)) := by
  induction h with
  | init capital risk_per_trade max_positions =>
    refine ⟨rfl, ?_⟩
    intro hpos count
    unfold RiskManager.can_take_position
    dsimp only [initialState]
    have h2 : ¬ ((0 : ℚ) ≤ -(capital * (5 / 100))) := by
      rw [neg_nonneg]
      exact not_le.mpr hpos
    by_cases h1 : count ≥ max_positions
    · rw [if_pos h1]
      exact (decide_eq_false (Nat.not_lt.mpr h1)).symm
    · rw [if_neg h1, if_neg h2]
      exact (decide_eq_true (Nat.lt_of_not_le h1)).symm
  | scan st venue now marketOpen watchlist dataFor hr ih =>
    rw [scan_and_trade_risk]
    exact ih
  | exec st venue now signal hr ih =>
    rw [execute_trade_risk]
    exact ih
  | force st venue ltp now hr ih =>
    rw [force_exit_risk]
    exact ih

/-- C9 witness: the freshly initialised default system. -/
theorem C9_witness :
    (initialState 50000 (2 / 100) 3).risk_manager.daily_pnl = 0 ∧
    RiskManager.can_take_position
      (initialState 50000 (2 / 100) 3).risk_manager 0 =
      decide (0 < (initialState 50000 (2 / 100) 3).risk_manager.max_positions)
    :=
  ⟨(C9_theorem _ (Reachable.init 50000 (2 / 100) 3)).1,
   (C9_theorem _ (Reachable.init 50000 (2 / 100) 3)).2
     (by norm_num [initialState]) 0⟩
